import Mathlib

/-!
# Verification of the agent-connector-platform load pipeline

Shallow embedding of the repository's Python source:

* `tool_service/src/load_csv.py`   — `CSVLoader.load_csv`
* `tool_service/transformer.py`    — `DataTransformer.transform_data`
* `tool_service/connection.py`     — `ConnectionHandler.handle_request`
* `tool_service/src/load_sql.py`   — `SQLDataFrameLoader` (connection string
  assembly, engine initialisation, `test_connection`,
  `load_dataframe_to_sql`, `get_table_info`)

Python dictionaries and scalars are modelled by the inductive `PyVal`;
the filesystem seen by the CSV loader is a partial map from paths to CSV
files; the database driver (SQLAlchemy engine, `DataFrame.to_sql`,
`inspect`) is modelled by explicit outcome parameters, since the source
only observes whether those external calls succeed or raise.  A Python
function that may raise an exception that escapes it is embedded with an
`Except` result type; a function whose `try/except` blocks catch every
exception is embedded as a total function (the exhaustive `match` mirrors
the exhaustive handler chain).
-/

/-- A Python value as used by the request/response dictionaries of the
service: `None`, booleans, integers, strings, lists and string-keyed
dictionaries.  (No other value shapes occur in the embedded code.) -/
inductive PyVal where
  | none : PyVal
  | bool : Bool → PyVal
  | int : Int → PyVal
  | str : String → PyVal
  | list : List PyVal → PyVal
  | dict : List (String × PyVal) → PyVal

mutual

/-- Decidable equality on `PyVal`, by mutual structural recursion. -/
def PyVal.eqb : PyVal → PyVal → Bool
  | .none, .none => true
  | .bool a, .bool b => a == b
  | .int a, .int b => a == b
  | .str a, .str b => a == b
  | .list a, .list b => PyVal.eqbList a b
  | .dict a, .dict b => PyVal.eqbPairs a b
  | _, _ => false

/-- Elementwise equality of `PyVal` lists. -/
def PyVal.eqbList : List PyVal → List PyVal → Bool
  | [], [] => true
  | a :: as, b :: bs => PyVal.eqb a b && PyVal.eqbList as bs
  | _, _ => false

/-- Elementwise equality of key/value pair lists. -/
def PyVal.eqbPairs : List (String × PyVal) → List (String × PyVal) → Bool
  | [], [] => true
  | (ka, va) :: as, (kb, vb) :: bs =>
      ka == kb && PyVal.eqb va vb && PyVal.eqbPairs as bs
  | _, _ => false

end

mutual

theorem PyVal.eqb_iff : ∀ a b : PyVal, PyVal.eqb a b = true ↔ a = b
  | .none, .none => by simp [PyVal.eqb]
  | .bool a, .bool b => by simp [PyVal.eqb]
  | .int a, .int b => by simp [PyVal.eqb]
  | .str a, .str b => by simp [PyVal.eqb]
  | .list a, .list b => by
      simp only [PyVal.eqb, PyVal.list.injEq]
      exact PyVal.eqbList_iff a b
  | .dict a, .dict b => by
      simp only [PyVal.eqb, PyVal.dict.injEq]
      exact PyVal.eqbPairs_iff a b
  | .none, .bool _ | .none, .int _ | .none, .str _ | .none, .list _ | .none, .dict _
  | .bool _, .none | .bool _, .int _ | .bool _, .str _ | .bool _, .list _ | .bool _, .dict _
  | .int _, .none | .int _, .bool _ | .int _, .str _ | .int _, .list _ | .int _, .dict _
  | .str _, .none | .str _, .bool _ | .str _, .int _ | .str _, .list _ | .str _, .dict _
  | .list _, .none | .list _, .bool _ | .list _, .int _ | .list _, .str _ | .list _, .dict _
  | .dict _, .none | .dict _, .bool _ | .dict _, .int _ | .dict _, .str _ | .dict _, .list _ => by
      simp [PyVal.eqb]

theorem PyVal.eqbList_iff : ∀ a b : List PyVal, PyVal.eqbList a b = true ↔ a = b
  | [], [] => by simp [PyVal.eqbList]
  | a :: as, b :: bs => by
      simp only [PyVal.eqbList, Bool.and_eq_true, List.cons.injEq]
      exact and_congr (PyVal.eqb_iff a b) (PyVal.eqbList_iff as bs)
  | [], _ :: _ => by simp [PyVal.eqbList]
  | _ :: _, [] => by simp [PyVal.eqbList]

theorem PyVal.eqbPairs_iff :
    ∀ a b : List (String × PyVal), PyVal.eqbPairs a b = true ↔ a = b
  | [], [] => by simp [PyVal.eqbPairs]
  | (ka, va) :: as, (kb, vb) :: bs => by
      simp only [PyVal.eqbPairs, Bool.and_eq_true, List.cons.injEq, Prod.mk.injEq,
        beq_iff_eq, and_assoc]
      exact and_congr_right fun _ =>
        and_congr (PyVal.eqb_iff va vb) (PyVal.eqbPairs_iff as bs)
  | [], _ :: _ => by simp [PyVal.eqbPairs]
  | _ :: _, [] => by simp [PyVal.eqbPairs]

end

instance : DecidableEq PyVal := fun a b =>
  decidable_of_iff (PyVal.eqb a b = true) (PyVal.eqb_iff a b)

/-- First-match association-list lookup: the semantics of indexing a
Python `dict` literal represented as an ordered key/value list. -/
def assocFind : List (String × PyVal) → String → Option PyVal
  | [], _ => Option.none
  | (k, v) :: kvs, key => if k = key then some v else assocFind kvs key

/-- Python's `d.get(key)` (default `None`).  On a non-dictionary value the
embedded code never reaches this call with a checked result, so the model
returns `None` there as well. -/
def PyVal.get (v : PyVal) (key : String) : PyVal :=
  match v with
  | .dict kvs => (assocFind kvs key).getD .none
  | _ => .none

/-- Python's `d.get(key, default)`. -/
def PyVal.getD (v : PyVal) (key : String) (default : PyVal) : PyVal :=
  match v with
  | .dict kvs => (assocFind kvs key).getD default
  | _ => default

/-- Python truthiness: `None`, `False`, `0`, `""`, `[]` and the empty dict
are falsy; everything else modelled here is truthy. -/
def pyTruthy : PyVal → Bool
  | .none => false
  | .bool b => b
  | .int n => n != 0
  | .str s => s != ""
  | .list xs => !xs.isEmpty
  | .dict kvs => !kvs.isEmpty

mutual

/-- Python `repr` of a value, as it appears inside container displays. -/
def pyRepr : PyVal → String
  | .none => "None"
  | .bool b => if b then "True" else "False"
  | .int n => toString n
  | .str s => "'" ++ s ++ "'"
  | .list xs => "[" ++ pyReprItems xs ++ "]"
  | .dict kvs => "\x7b" ++ pyReprPairs kvs ++ "\x7d"

/-- Comma-separated rendering of the items of a Python list. -/
def pyReprItems : List PyVal → String
  | [] => ""
  | [x] => pyRepr x
  | x :: xs => pyRepr x ++ ", " ++ pyReprItems xs

/-- Comma-separated rendering of the entries of a Python dict. -/
def pyReprPairs : List (String × PyVal) → String
  | [] => ""
  | [(k, v)] => "'" ++ k ++ "': " ++ pyRepr v
  | (k, v) :: kvs => "'" ++ k ++ "': " ++ pyRepr v ++ ", " ++ pyReprPairs kvs

end

/-- Python `str(v)`, the conversion applied by f-string interpolation:
identical to `repr` except on strings, which are inserted verbatim. -/
def pyStr : PyVal → String
  | .str s => s
  | v => pyRepr v

/-- Python's `str.lower()` on the ASCII engine identifiers compared by
`_build_connection_string` (character-wise ASCII lowering). -/
def pyLower (s : String) : String :=
  String.mk (s.data.map Char.toLower)

/-- One hexadecimal digit, upper case, as used by `urllib.parse.quote_plus`. -/
def hexDigit (n : Nat) : String :=
  if n = 0 then "0" else if n = 1 then "1" else if n = 2 then "2"
  else if n = 3 then "3" else if n = 4 then "4" else if n = 5 then "5"
  else if n = 6 then "6" else if n = 7 then "7" else if n = 8 then "8"
  else if n = 9 then "9" else if n = 10 then "A" else if n = 11 then "B"
  else if n = 12 then "C" else if n = 13 then "D" else if n = 14 then "E"
  else "F"

/-- `%XX` escape of one byte. -/
def percentByte (b : Nat) : String :=
  "%" ++ hexDigit (b / 16 % 16) ++ hexDigit (b % 16)

/-- Encoding of one character under `quote_plus`: ASCII letters, digits and
`_ . - ~` pass through, space becomes `+`, and every other character is
percent-encoded byte by byte in its UTF-8 encoding. -/
def quotePlusChar (c : Char) : String :=
  if c.isAlphanum || c = '_' || c = '.' || c = '-' || c = '~' then c.toString
  else if c = ' ' then "+"
  else String.join (((String.toUTF8 c.toString).toList).map (fun b => percentByte b.toNat))

/-- `urllib.parse.quote_plus` on a string (default `safe` set). -/
def quote_plus (s : String) : String :=
  String.join (s.toList.map quotePlusChar)

/-- `quote_plus(v)` as called by the source: defined on strings, a
`TypeError` on every other Python value. -/
def quotePlusVal : PyVal → Except String String
  | .str s => Except.ok (quote_plus s)
  | _ => Except.error "TypeError: quote_plus expects a string"

/-- `SQLDataFrameLoader._build_connection_string`
(`tool_service/src/load_sql.py`, lines 41-81), as a function of the
fields `self.db_type`, `self.database_name`, `self.connection_details`
set by `__init__`.  `Except.error` models a raised exception
(`ValueError` for an unsupported database type; calling `.lower()` on a
non-string `db_type` raises `AttributeError` before any branch is
taken). -/
def build_connection_string (db_type database_name conn : PyVal) :
    Except String String :=
  match db_type with
  | .str s =>
    if pyLower s = "sqlite" then
      -- db_file = conn.get("database") or f"{self.database_name}.db"
      let db_file : PyVal :=
        if pyTruthy (conn.get "database") then conn.get "database"
        else .str (pyStr database_name ++ ".db")
      Except.ok ("sqlite:///" ++ pyStr db_file)
    else if pyLower s = "postgresql" then
      let user := conn.getD "user" (.str "postgres")
      let password := conn.getD "password" (.str "")
      let host := conn.getD "host" (.str "localhost")
      let port := conn.getD "port" (.int 5432)
      let database := conn.getD "database" database_name
      if pyTruthy password then
        Except.ok ("postgresql://" ++ pyStr user ++ ":" ++ pyStr password ++ "@" ++
          pyStr host ++ ":" ++ pyStr port ++ "/" ++ pyStr database)
      else
        Except.ok ("postgresql://" ++ pyStr user ++ "@" ++
          pyStr host ++ ":" ++ pyStr port ++ "/" ++ pyStr database)
    else if pyLower s = "mssql" then
      let user := conn.getD "user" (.str "root")
      let password := conn.getD "password" (.str "")
      let host := conn.getD "host" (.str "localhost")
      let port := conn.getD "port" (.int 1433)
      let database := conn.getD "database" database_name
      do
        let user_enc ← if pyTruthy user then quotePlusVal user else pure ""
        if pyTruthy password then
          let password_enc ← quotePlusVal password
          pure ("mssql+pymssql://" ++ user_enc ++ ":" ++ password_enc ++ "@" ++
            pyStr host ++ ":" ++ pyStr port ++ "/" ++ pyStr database)
        else
          pure ("mssql+pymssql://" ++ user_enc ++ "@" ++
            pyStr host ++ ":" ++ pyStr port ++ "/" ++ pyStr database)
    else
      Except.error ("Unsupported database type: " ++ s)
  | v =>
    Except.error ("AttributeError: " ++ pyRepr v ++ " has no attribute lower")

/-- A delimited file as seen by `csv.DictReader`: the header row and the
data rows, each a list of cell strings. -/
structure CSVFile where
  header : List String
  records : List (List String)

/-- The filesystem the CSV loader reads from: a partial map from paths to
parsed CSV files (`Option.none` = the path does not exist, so `open`
raises `FileNotFoundError`). -/
def FS : Type := String → Option CSVFile

/-- One `csv.DictReader` row: the header names zipped with the row's
cells (rectangular files only, which is all the embedded claims use). -/
def dictReaderRow (header : List String) (cells : List String) : PyVal :=
  .dict ((header.zip cells).map (fun kv => (kv.1, .str kv.2)))

/-- `CSVLoader.load_csv` (`tool_service/src/load_csv.py`, lines 13-37).
Total: every exception raised by `open`/`csv` is caught by the
`except FileNotFoundError` / `except Exception` chain and converted into
a `status:"failed"` dictionary.  A non-string path makes `open` raise a
`TypeError`, which the generic handler converts the same way. -/
def load_csv (path : PyVal) (fs : FS) : PyVal :=
  match path with
  | .str p =>
    match fs p with
    | Option.none =>
        .dict [("status", .str "failed"),
               ("error", .str ("File not found: " ++ p))]
    | some file =>
        .dict [("status", .str "success"),
               ("file_path", .str p),
               ("row_count", .int file.records.length),
               ("data", .list (file.records.map (dictReaderRow file.header)))]
  | v =>
      .dict [("status", .str "failed"),
             ("error", .str ("TypeError: invalid path " ++ pyRepr v))]

/-- `DataTransformer.transform_data` together with the private
`_build_transform_result` it tail-calls (`tool_service/transformer.py`,
lines 11-33).  The CSV loader's result is bound to `data_csv` and then
discarded, exactly as in the source; the returned dictionary holds only
the formatted message. -/
def transform_data (source destination : PyVal) (fs : FS) : PyVal :=
  let source_path := source.get "path"
  let table_name := destination.get "table"
  let _data_csv := load_csv source_path fs
  .dict [("message", .str ("Would transform data from " ++ pyStr source_path ++
    " into table " ++ pyStr table_name))]

/-- `ConnectionHandler.handle_request` (`tool_service/connection.py`,
lines 11-26).  The `except` branch building a `status:"failed"` response
is unreachable here because the embedded `transform_data` is total (its
own callee catches every exception), so the handler always returns the
`_success_response` shape of lines 34-40. -/
def handle_request (request : PyVal) (fs : FS) : PyVal :=
  let environment := request.get "environment"
  let source := request.getD "source" (.dict [])
  let destination := request.getD "destination" (.dict [])
  let result := transform_data source destination fs
  .dict [("status", .str "success"),
         ("environment", environment),
         ("result", result)]

/-- `SQLDataFrameLoader` instance state after `__init__`
(`tool_service/src/load_sql.py`, lines 20-39): the destination dict, the
three fields extracted from it, and the engine's connection string
(construction succeeds only if `_build_connection_string` did). -/
structure SQLDataFrameLoader where
  destination : PyVal
  db_type : PyVal
  database_name : PyVal
  connection_details : PyVal
  engine : String

/-- `SQLDataFrameLoader.__init__` plus `_initialize_engine`
(`tool_service/src/load_sql.py`, lines 20-39 and 83-92): extract the
config fields, build the connection string, and create the engine.  An
exception from `_build_connection_string` is logged and re-raised, so
construction returns `Except.error` and no loader (hence no engine
handle) exists. -/
def SQLDataFrameLoader.init (destination : PyVal) :
    Except String SQLDataFrameLoader :=
  let db_type := destination.getD "db_type" (.str "")
  let database_name := destination.getD "database_name" (.str "")
  let conn := destination.getD "connection" (.dict [])
  match build_connection_string db_type database_name conn with
  | Except.ok cs =>
      Except.ok ⟨destination, db_type, database_name, conn, cs⟩
  | Except.error e => Except.error e

/-- Outcome of one call into the external database driver (an engine
round-trip or a `DataFrame.to_sql` write): it either succeeds, raises a
`SQLAlchemyError` with message `m`, or raises some other exception with
message `m`.  The Python source only ever branches on which of these
three happened. -/
inductive DBOutcome where
  | connOk : DBOutcome
  | sqlError : String → DBOutcome
  | otherError : String → DBOutcome

/-- `SQLDataFrameLoader.test_connection`
(`tool_service/src/load_sql.py`, lines 94-128).  The `SELECT 1`
round-trip's outcome is the `eng` parameter; `except SQLAlchemyError`
and `except Exception` make the function total, so it returns a result
dictionary on every outcome. -/
def test_connection (l : SQLDataFrameLoader) (eng : DBOutcome) : PyVal :=
  match eng with
  | .connOk =>
      .dict [("success", .bool true),
             ("message", .str ("Successfully connected to " ++ pyStr l.db_type ++
               " database: " ++ pyStr l.database_name)),
             ("db_type", l.db_type),
             ("database", l.database_name)]
  | .sqlError m =>
      .dict [("success", .bool false),
             ("message", .str ("Database connection test failed: " ++ m)),
             ("db_type", l.db_type),
             ("database", l.database_name)]
  | .otherError m =>
      .dict [("success", .bool false),
             ("message", .str ("Unexpected error during connection test: " ++ m)),
             ("db_type", l.db_type),
             ("database", l.database_name)]

/-- One `DataFrame.to_sql` invocation as observed at the driver
boundary: the table argument, the `if_exists` behaviour and the number
of rows handed over. -/
structure WriteCall where
  table : PyVal
  if_exists : PyVal
  rows : Nat
deriving DecidableEq

/-- `SQLDataFrameLoader.load_dataframe_to_sql`
(`tool_service/src/load_sql.py`, lines 130-184).  The dataframe is its
list of rows (the source observes only emptiness and length); `toSql` is
the outcome of the single possible `to_sql` call.  Returns the boolean
result together with the list of `to_sql` calls actually made.  Total:
`except SQLAlchemyError` / `except Exception` convert every raised error
into a `false` return. -/
def load_dataframe_to_sql (l : SQLDataFrameLoader) (dataframe : List PyVal)
    (table_name if_exists : Option String) (toSql : DBOutcome) :
    Bool × List WriteCall :=
  -- table = table_name or self.destination.get("table")
  let table : PyVal :=
    match table_name with
    | some s => if s != "" then .str s else l.destination.get "table"
    | Option.none => l.destination.get "table"
  if !pyTruthy table then (false, [])
  else
    -- behavior = if_exists or self.destination.get("if_exists", "replace")
    let behavior : PyVal :=
      match if_exists with
      | some s => if s != "" then .str s else l.destination.getD "if_exists" (.str "replace")
      | Option.none => l.destination.getD "if_exists" (.str "replace")
    if dataframe.isEmpty then (false, [])
    else
      match toSql with
      | .connOk => (true, [⟨table, behavior, dataframe.length⟩])
      | .sqlError _ => (false, [⟨table, behavior, dataframe.length⟩])
      | .otherError _ => (false, [⟨table, behavior, dataframe.length⟩])

/-- Behaviour of `sqlalchemy.inspect` on the loader's engine: either any
inspection call raises (message `m`), or the database answers queries
from a map sending each existing table name to its ordered column-name
list (`has_table` = membership, `get_columns` = the list). -/
inductive InspectBehavior where
  | raises : String → InspectBehavior
  | tables : (String → Option (List String)) → InspectBehavior

/-- `SQLDataFrameLoader.get_table_info`
(`tool_service/src/load_sql.py`, lines 222-250).  `Option.none` models
Python's `None` return; the catch-all `except Exception` makes the
function total. -/
def get_table_info (l : SQLDataFrameLoader) (insp : InspectBehavior)
    (table_name : String) : Option PyVal :=
  match insp with
  | .raises _ => Option.none
  | .tables f =>
    match f table_name with
    | Option.none => Option.none
    | some cols =>
        some (.dict [("table_name", .str table_name),
                     ("columns", .list (cols.map PyVal.str)),
                     ("column_count", .int cols.length)])

/-! ## Concrete inputs used by the end-to-end evaluations -/

/-- The 2-row CSV file `file.csv` of the end-to-end scenario, and nothing
else on disk. -/
def c1FS : FS := fun p =>
  if p = "file.csv" then some ⟨["id", "name"], [["1", "a"], ["2", "b"]]⟩ else Option.none

/-- The end-to-end request of the specification's success scenario. -/
def c1Request : PyVal :=
  .dict [("source", .dict [("path", .str "file.csv")]),
         ("destination", .dict [("db_type", .str "sqlite"),
                                ("connection", .dict [("database", .str "test.db")]),
                                ("table", .str "users")])]

/-- A filesystem with no files at all: every `open` raises
`FileNotFoundError`. -/
def emptyFS : FS := fun _ => Option.none

/-- A request whose source path names a file that does not exist. -/
def c2Request : PyVal :=
  .dict [("source", .dict [("path", .str "missing.csv")]),
         ("destination", .dict [("table", .str "users")])]

/-! ## The claims -/

/-- Claim C1 (code bug).  The claim says that on a request whose
connection test succeeds the orchestrator invokes
`write(structure, destination.table)` and returns the write's boolean as
the pipeline outcome, so the end-to-end request against a 2-row CSV
yields `{status:"success", result:true}`.  The code does not do this:
`DataTransformer.transform_data` never constructs the SQL sink and never
calls `load_dataframe_to_sql`; it discards the CSV payload and returns a
placeholder message dictionary, so the response's `result` is that
dictionary, not the boolean `true`.  This theorem evaluates the embedded
pipeline at the claim's own end-to-end input. -/
theorem c1_pipeline_returns_placeholder_not_write_result :
    handle_request c1Request c1FS =
      .dict [("status", .str "success"),
             ("environment", PyVal.none),
             ("result", .dict [("message",
               .str "Would transform data from file.csv into table users")])] ∧
    (handle_request c1Request c1FS).get "result" ≠ .bool true :=
  ⟨rfl, by decide⟩

/-- Claim C2 (code bug).  The claim says a request whose source path does
not exist yields a `status:"failed"` response whose error mentions
"File not found".  In the code, `CSVLoader.load_csv` does build exactly
that failure dictionary (first conjunct), but
`DataTransformer._build_transform_result` discards it, so
`ConnectionHandler.handle_request` still answers `status:"success"` with
the placeholder message and no error field (second and third
conjuncts). -/
theorem c2_missing_file_yields_success_response :
    load_csv (.str "missing.csv") emptyFS =
      .dict [("status", .str "failed"),
             ("error", .str "File not found: missing.csv")] ∧
    handle_request c2Request emptyFS =
      .dict [("status", .str "success"),
             ("environment", PyVal.none),
             ("result", .dict [("message",
               .str "Would transform data from missing.csv into table users")])] ∧
    (handle_request c2Request emptyFS).get "status" ≠ .str "failed" :=
  ⟨rfl, rfl, by decide⟩

/-- Claim C3, counterexample.  The claim's sqlite clause says the target
file is `connection.database` "if present": with the key present but
mapped to the empty string that predicts target `""`, i.e. the
connection string `"sqlite:///" ++ ""`.  The code instead tests
truthiness and falls back to `{database_name}.db`. -/
theorem c3_sqlite_empty_database_value_counterexample :
    build_connection_string (.str "sqlite") (.str "mydb")
        (.dict [("database", .str "")]) =
      Except.ok "sqlite:///mydb.db" ∧
    ("sqlite:///mydb.db" : String) ≠ "sqlite:///" ++ "" :=
  ⟨rfl, by decide⟩

/-- Claim C3, amended: for db_type in \x7bsqlite, postgresql, mssql\x7d the
builder produces the documented scheme and prefix with the documented
defaults — sqlite: target file `connection.database` if present with a
non-empty (truthy) value, else `{database_name}.db`; postgresql: user
defaults to `postgres`, host to `localhost`, port to `5432`, database to
`database_name`; mssql: user defaults to `root`, port to `1433`,
credentials percent-encoded under the `pymssql` driver scheme — and when
no password is given the colon after the user is omitted. -/
theorem c3_connection_string_schemes_and_defaults
    (dbname user pw host db file : String) (port : Int)
    (hfile : file ≠ "") (huser : user ≠ "") (hpw : pw ≠ "") :
    build_connection_string (.str "sqlite") (.str dbname) (.dict []) =
      Except.ok ("sqlite:///" ++ (dbname ++ ".db")) ∧
    build_connection_string (.str "sqlite") (.str dbname) (.dict [("database", .str file)]) =
      Except.ok ("sqlite:///" ++ file) ∧
    build_connection_string (.str "postgresql") (.str dbname) (.dict []) =
      Except.ok ("postgresql://postgres@localhost:5432/" ++ dbname) ∧
    build_connection_string (.str "postgresql") (.str dbname)
        (.dict [("user", .str user), ("password", .str pw), ("host", .str host),
                ("port", .int port), ("database", .str db)]) =
      Except.ok ("postgresql://" ++ user ++ ":" ++ pw ++ "@" ++ host ++ ":" ++
        toString port ++ "/" ++ db) ∧
    build_connection_string (.str "postgresql") (.str dbname)
        (.dict [("user", .str user), ("host", .str host),
                ("port", .int port), ("database", .str db)]) =
      Except.ok ("postgresql://" ++ user ++ "@" ++ host ++ ":" ++
        toString port ++ "/" ++ db) ∧
    build_connection_string (.str "mssql") (.str dbname) (.dict []) =
      Except.ok ("mssql+pymssql://root@localhost:1433/" ++ dbname) ∧
    build_connection_string (.str "mssql") (.str dbname)
        (.dict [("user", .str user), ("password", .str pw), ("host", .str host),
                ("port", .int port), ("database", .str db)]) =
      Except.ok ("mssql+pymssql://" ++ quote_plus user ++ ":" ++ quote_plus pw ++ "@" ++
        host ++ ":" ++ toString port ++ "/" ++ db) ∧
    build_connection_string (.str "mssql") (.str dbname)
        (.dict [("user", .str user), ("host", .str host),
                ("port", .int port), ("database", .str db)]) =
      Except.ok ("mssql+pymssql://" ++ quote_plus user ++ "@" ++
        host ++ ":" ++ toString port ++ "/" ++ db) := by
  refine ⟨rfl, ?_, rfl, ?_, ?_, rfl, ?_, ?_⟩ <;>
    simp [build_connection_string, PyVal.get, PyVal.getD, assocFind, pyTruthy,
      pyStr, pyRepr, quotePlusVal, hfile, huser, hpw,
      show pyLower "sqlite" = "sqlite" from by decide,
      show pyLower "postgresql" = "postgresql" from by decide,
      show pyLower "mssql" = "mssql" from by decide, bind, Except.bind, pure, Except.pure]

/-- Claim C3, witness: the amended theorem applied at concrete inputs;
the extracted conjunct is the mssql branch with an `@` and a space in
the credentials, which the builder percent-encodes. -/
theorem c3_connection_string_schemes_and_defaults_witness :
    ("test.db" : String) ≠ "" ∧ ("u@x" : String) ≠ "" ∧ ("p w" : String) ≠ "" ∧
    build_connection_string (.str "mssql") (.str "mydb")
        (.dict [("user", .str "u@x"), ("password", .str "p w"), ("host", .str "h"),
                ("port", .int 7), ("database", .str "d")]) =
      Except.ok ("mssql+pymssql://" ++ quote_plus "u@x" ++ ":" ++ quote_plus "p w" ++ "@" ++
        "h" ++ ":" ++ toString (7 : Int) ++ "/" ++ "d") :=
  ⟨by decide, by decide, by decide,
    (c3_connection_string_schemes_and_defaults "mydb" "u@x" "p w" "h" "d" "test.db" 7
      (by decide) (by decide) (by decide)).2.2.2.2.2.2.1⟩

/-- Claim C4 (confirmed).  For a destination whose `db_type` string is
not one of sqlite/postgresql/mssql (case-insensitively), construction
raises `ValueError("Unsupported database type: ...")`: `init` returns
`Except.error`, so no loader value — and hence no engine handle —
exists. -/
theorem c4_unsupported_db_type_construction_fails
    (destination : PyVal) (s : String)
    (hget : destination.getD "db_type" (.str "") = .str s)
    (h1 : pyLower s ≠ "sqlite") (h2 : pyLower s ≠ "postgresql")
    (h3 : pyLower s ≠ "mssql") :
    SQLDataFrameLoader.init destination =
      Except.error ("Unsupported database type: " ++ s) := by
  simp [SQLDataFrameLoader.init, build_connection_string, hget, h1, h2, h3]

/-- Claim C4, witness: a destination asking for an `oracle` engine. -/
theorem c4_unsupported_db_type_construction_fails_witness :
    (PyVal.dict [("db_type", .str "oracle")]).getD "db_type" (.str "") = .str "oracle" ∧
    pyLower "oracle" ≠ "sqlite" ∧ pyLower "oracle" ≠ "postgresql" ∧
    pyLower "oracle" ≠ "mssql" ∧
    SQLDataFrameLoader.init (.dict [("db_type", .str "oracle")]) =
      Except.error ("Unsupported database type: " ++ "oracle") :=
  ⟨rfl, by decide, by decide, by decide,
    c4_unsupported_db_type_construction_fails (.dict [("db_type", .str "oracle")])
      "oracle" rfl (by decide) (by decide) (by decide)⟩

/-- Claim C5 (confirmed).  `test_connection` is a total function of the
engine outcome — the `except SQLAlchemyError` / `except Exception`
handlers catch every error of the `SELECT 1` round-trip, so it never
raises: a successful round-trip returns `success=true` with the
`db_type` and `database` fields, and both error kinds return
`success=false` with a descriptive message. -/
theorem c5_test_connection_never_raises (l : SQLDataFrameLoader) (m : String) :
    test_connection l .connOk =
      .dict [("success", .bool true),
             ("message", .str ("Successfully connected to " ++ pyStr l.db_type ++
               " database: " ++ pyStr l.database_name)),
             ("db_type", l.db_type), ("database", l.database_name)] ∧
    test_connection l (.sqlError m) =
      .dict [("success", .bool false),
             ("message", .str ("Database connection test failed: " ++ m)),
             ("db_type", l.db_type), ("database", l.database_name)] ∧
    test_connection l (.otherError m) =
      .dict [("success", .bool false),
             ("message", .str ("Unexpected error during connection test: " ++ m)),
             ("db_type", l.db_type), ("database", l.database_name)] ∧
    ∀ eng, (test_connection l eng).get "success" = .bool true ∨
      (test_connection l eng).get "success" = .bool false := by
  refine ⟨rfl, rfl, rfl, fun eng => ?_⟩
  cases eng
  · exact Or.inl rfl
  · exact Or.inr rfl
  · exact Or.inr rfl

/-- Claim C6 (confirmed).  Writing an empty dataframe returns `false`,
makes no `to_sql` call (the trace of driver calls is empty), and — the
function being total — raises no error; this holds for every loader,
table-name argument, `if_exists` argument and driver behaviour. -/
theorem c6_write_empty_dataframe_returns_false_no_call
    (l : SQLDataFrameLoader) (tn ie : Option String) (o : DBOutcome) :
    load_dataframe_to_sql l [] tn ie o = (false, []) := by
  simp [load_dataframe_to_sql]

/-- Claim C7 (confirmed).  The table is resolved from the `table_name`
parameter when that is a non-empty string (every `to_sql` call uses it);
with no parameter it is resolved from the destination's `table` entry;
and when neither resolves to a truthy value the call returns `false`
with no `to_sql` call and no exception. -/
theorem c7_write_table_name_resolution (l : SQLDataFrameLoader)
    (df : List PyVal) (ie : Option String) (o : DBOutcome) (s : String) :
    (s ≠ "" → ((load_dataframe_to_sql l df (some s) ie o).2.all
        (fun c => c.table == .str s)) = true) ∧
    ((load_dataframe_to_sql l df Option.none ie o).2.all
        (fun c => c.table == l.destination.get "table")) = true ∧
    (pyTruthy (l.destination.get "table") = false →
      load_dataframe_to_sql l df Option.none ie o = (false, [])) := by
  refine ⟨?_, ?_, ?_⟩
  · intro hs
    have hb : (s != "") = true := by simpa using hs
    simp only [load_dataframe_to_sql, hb, if_true]
    by_cases hdf : df.isEmpty <;> cases o <;>
      simp [hdf, pyTruthy, hb, List.all]
  · by_cases ht : pyTruthy (l.destination.get "table") <;>
      by_cases hdf : df.isEmpty <;> cases o <;>
        simp [load_dataframe_to_sql, ht, hdf, List.all]
  · intro h
    simp [load_dataframe_to_sql, h]

/-- Claim C7, witness: with a one-row dataframe, a parameter table name
`"t"` is used for the write; with no parameter and a destination that
has no `table` entry, the write returns `false` without a driver
call. -/
theorem c7_write_table_name_resolution_witness :
    ("t" : String) ≠ "" ∧
    ((load_dataframe_to_sql
        ⟨.dict [("table", .str "users")], .str "sqlite", .str "", .dict [],
          "sqlite:///test.db"⟩
        [PyVal.none] (some "t") Option.none .connOk).2.all
      (fun c => c.table == .str "t")) = true ∧
    pyTruthy ((SQLDataFrameLoader.mk (.dict []) (.str "sqlite") (.str "") (.dict [])
        "sqlite:///test.db").destination.get "table") = false ∧
    load_dataframe_to_sql
        (SQLDataFrameLoader.mk (.dict []) (.str "sqlite") (.str "") (.dict [])
          "sqlite:///test.db")
        [PyVal.none] Option.none Option.none .connOk = (false, []) :=
  ⟨by decide,
    (c7_write_table_name_resolution
      ⟨.dict [("table", .str "users")], .str "sqlite", .str "", .dict [],
        "sqlite:///test.db"⟩
      [PyVal.none] Option.none .connOk "t").1 (by decide),
    by decide,
    (c7_write_table_name_resolution
      (SQLDataFrameLoader.mk (.dict []) (.str "sqlite") (.str "") (.dict [])
        "sqlite:///test.db")
      [PyVal.none] Option.none .connOk "t").2.2 (by decide)⟩

/-- Claim C8 (confirmed).  `get_table_info` returns `None` when any
inspection call raises and when the table is absent, never raising
itself (it is total), and otherwise returns the
`{table_name, columns, column_count}` dictionary whose `column_count` is
the length of the column list reported by the metadata query — stated
as one `Option.map` equation, whose `Option.none` case is exactly the
absent-table case. -/
theorem c8_get_table_info_null_or_info (l : SQLDataFrameLoader) (m : String)
    (f : String → Option (List String)) (t : String) :
    get_table_info l (.raises m) t = Option.none ∧
    get_table_info l (.tables f) t = (f t).map (fun cols =>
      .dict [("table_name", .str t),
             ("columns", .list (cols.map PyVal.str)),
             ("column_count", .int cols.length)]) := by
  refine ⟨rfl, ?_⟩
  cases h : f t <;> simp [get_table_info, h]

/-- Claim C9 (confirmed).  For every source and destination dictionary,
`transform_data` returns exactly the one-key message dictionary built
from `source.get("path")` and `destination.get("table")`, and the result
is identical for any two filesystems — the CSV loader's return value
(success payload or failure dictionary) never influences it. -/
theorem c9_transform_result_ignores_csv_outcome
    (source destination : PyVal) (fs fs2 : FS) :
    transform_data source destination fs =
      .dict [("message", .str ("Would transform data from " ++ pyStr (source.get "path") ++
        " into table " ++ pyStr (destination.get "table")))] ∧
    transform_data source destination fs = transform_data source destination fs2 :=
  ⟨rfl, rfl⟩

/-- Claim C10 (confirmed).  The sqlite target is chosen by truthiness,
not key presence: a non-empty `connection["database"]` is used verbatim,
while the key mapped to the empty string (or to `None`, another falsy
value) falls back to `{database_name}.db`, giving exactly the same
connection string as when the key is absent. -/
theorem c10_sqlite_database_truthiness (dbname s : String) (hs : s ≠ "") :
    build_connection_string (.str "sqlite") (.str dbname) (.dict [("database", .str s)]) =
      Except.ok ("sqlite:///" ++ s) ∧
    build_connection_string (.str "sqlite") (.str dbname) (.dict [("database", .str "")]) =
      Except.ok ("sqlite:///" ++ (dbname ++ ".db")) ∧
    build_connection_string (.str "sqlite") (.str dbname) (.dict [("database", PyVal.none)]) =
      Except.ok ("sqlite:///" ++ (dbname ++ ".db")) ∧
    build_connection_string (.str "sqlite") (.str dbname) (.dict [("database", .str "")]) =
      build_connection_string (.str "sqlite") (.str dbname) (.dict []) := by
  refine ⟨?_, ?_, ?_, ?_⟩ <;>
    simp [build_connection_string, PyVal.get, assocFind, pyTruthy, pyStr, pyRepr, hs,
      show pyLower "sqlite" = "sqlite" from by decide]

/-- Claim C10, witness: the truthy case at the concrete file name used
throughout the repository's tests. -/
theorem c10_sqlite_database_truthiness_witness :
    ("test.db" : String) ≠ "" ∧
    build_connection_string (.str "sqlite") (.str "database_name")
        (.dict [("database", .str "test.db")]) =
      Except.ok ("sqlite:///" ++ "test.db") :=
  ⟨by decide, (c10_sqlite_database_truthiness "database_name" "test.db" (by decide)).1⟩
